import Mathlib

/-!
Shallow embedding of `djangorest_alchemy/mixins.py`.

The module has three parts:
* a pagination adapter `MultipleObjectMixin` built on Django's `Paginator`
  and `Page` (the relevant Django 1.x paginator semantics are embedded
  here, since the repository depends on them);
* `make_action_method`, which synthesizes a view handler that dispatches
  to a manager method and translates its result into an HTTP response
  via the `STATUS_CODES` table;
* the metaclass `ManagerMeta`, which attaches such handlers to a viewset
  class for every entry of the manager class's `action_methods` dict.

Python-level failures (KeyError, AttributeError, ValueError, TypeError,
and Django's InvalidPage / PageNotAnInteger / EmptyPage) are modelled with
an error type threaded through `Except`; exception messages are dropped,
only the exception class (and the offending key, where a claim needs it)
is kept.
-/

/-- The Python exception classes that the embedded code can raise.
Message strings are not modelled; `keyError` and `attributeError` keep
the offending key/name. In Django, `PageNotAnInteger` and `EmptyPage`
are subclasses of `InvalidPage`; here they are separate constructors. -/
inductive PyErr where
  | keyError (k : String)
  | attributeError (nm : String)
  | typeError
  | valueError
  | invalidPage
  | pageNotAnInteger
  | emptyPage

deriving instance DecidableEq for PyErr

/-- A Python value that can appear as the requested page identifier:
`None` (absent key), an integer, or a string. -/
inductive PageVal where
  | vnone
  | vint (n : Int)
  | vstr (s : String)

deriving instance DecidableEq for PageVal

/-- Python truthiness for `PageVal`: `None`, `0` and `""` are falsy. -/
def PageVal.truthy : PageVal → Bool
  | .vnone => false
  | .vint n => n ≠ 0
  | .vstr s => s ≠ ""

/-- Python's short-circuit `a or b`: `a` when `a` is truthy, else `b`. -/
def pyOr (a b : PageVal) : PageVal :=
  if a.truthy then a else b

/-- Numeric value of a digit string; `none` as soon as a non-digit occurs.
The empty list yields `some 0`; callers guard against emptiness. -/
def digitsVal (cs : List Char) : Option Nat :=
  cs.foldl
    (fun acc c =>
      match acc with
      | none => none
      | some n => if c.isDigit then some (n * 10 + (c.toNat - 48)) else none)
    (some 0)

/-- Python's `int(s)` on a string: an optional sign followed by at least
one digit (surrounding-whitespace trivia is not modelled). -/
def parseIntPy (s : String) : Option Int :=
  match s.data with
  | [] => none
  | c :: cs =>
    if c = '-' then
      if cs.isEmpty then none else (digitsVal cs).map (fun n => -(n : Int))
    else if c = '+' then
      if cs.isEmpty then none else (digitsVal cs).map (fun n => (n : Int))
    else (digitsVal (c :: cs)).map (fun n => (n : Int))

/-- Python's `int(x)` on a page value: integers pass through, strings are
parsed (`ValueError` on failure), `None` raises `TypeError`. -/
def pyIntOf : PageVal → Except PyErr Int
  | .vint n => .ok n
  | .vstr s =>
    match parseIntPy s with
    | some n => .ok n
    | none => .error .valueError
  | .vnone => .error .typeError

/-! ### Django's paginator (the dependency the mixin is built on)

Embedded from Django 1.x `django/core/paginator.py` with `orphans = 0`,
which is what `MultipleObjectMixin.get_paginator` always passes. -/

/-- Django `Paginator`: the query object is modelled by its result list. -/
structure Paginator (α : Type) where
  object_list : List α
  per_page : Nat
  allow_empty_first_page : Bool

deriving instance DecidableEq for Paginator

/-- Django `Paginator.count`: number of objects. -/
def Paginator.count (p : Paginator α) : Nat :=
  p.object_list.length

/-- Django `Paginator.num_pages` with `orphans = 0`:
`0` for an empty list when an empty first page is disallowed, otherwise
`ceil(max(1, count) / per_page)`. At `per_page = 0` the Nat division
returns `0` where Django raises ZeroDivisionError, so every theorem
whose execution path reaches this division assumes a positive page
size. -/
def Paginator.num_pages (p : Paginator α) : Nat :=
  if p.count = 0 ∧ p.allow_empty_first_page = false then 0
  else (max 1 p.count + p.per_page - 1) / p.per_page

/-- Django `Paginator.validate_number` on an integer page number:
`EmptyPage` below 1 or beyond `num_pages`, except that page 1 of an empty
paginator is allowed when `allow_empty_first_page` is set. -/
def Paginator.validate_number (p : Paginator α) (number : Int) : Except PyErr Nat :=
  if number < 1 then .error .emptyPage
  else if number > (p.num_pages : Int) then
    if number = 1 ∧ p.allow_empty_first_page = true then .ok 1
    else .error .emptyPage
  else .ok number.toNat

/-- Django `Page`: the slice of objects, the validated page number, and
the paginator it came from. -/
structure Page (α : Type) where
  object_list : List α
  number : Int
  paginator : Paginator α

deriving instance DecidableEq for Page

/-- Django `Page.has_previous`. -/
def Page.has_previous (pg : Page α) : Bool :=
  pg.number > 1

/-- Django `Page.has_next`. -/
def Page.has_next (pg : Page α) : Bool :=
  pg.number < (pg.paginator.num_pages : Int)

/-- Django `Page.has_other_pages`. -/
def Page.has_other_pages (pg : Page α) : Bool :=
  pg.has_previous || pg.has_next

/-- Django `Paginator.page` with `orphans = 0`: validate the number, then
slice `object_list[bottom:top]` with `bottom = (n-1)*per_page`,
`top = bottom + per_page` clamped to `count`. -/
def Paginator.page (p : Paginator α) (number : Int) : Except PyErr (Page α) :=
  match p.validate_number number with
  | .error e => .error e
  | .ok n =>
    let bottom := (n - 1) * p.per_page
    let top0 := bottom + p.per_page
    let top := if p.count ≤ top0 then p.count else top0
    .ok ⟨(p.object_list.drop bottom).take (top - bottom), (n : Int), p⟩

/-! ### MultipleObjectMixin -/

/-- The state of a `MultipleObjectMixin` instance that
`paginate_query_object` reads: the configured `allow_empty` and
`paginate_by` attributes, and the page identifiers obtained from
`self.kwargs.get('page')` and `self.request.GET.get('page')`
(`vnone` when the key is absent).

The source defaults `paginate_by` to `None`; only a configured numeric
page size is modelled, since passing `None` through to Django's
`Paginator` raises inside the dependency before any mixin code runs. -/
structure MultipleObjectMixin where
  allow_empty : Bool
  paginate_by : Nat
  kwargs_page : PageVal
  request_GET_page : PageVal

/-- `get_allow_empty`: returns the `allow_empty` attribute. -/
def MultipleObjectMixin.get_allow_empty (self : MultipleObjectMixin) : Bool :=
  self.allow_empty

/-- `get_paginate_by`: returns the `paginate_by` attribute. -/
def MultipleObjectMixin.get_paginate_by (self : MultipleObjectMixin) (_query_object : List α) : Nat :=
  self.paginate_by

/-- `filter_query_object`: a stub, returns the query object unchanged. -/
def MultipleObjectMixin.filter_query_object (self : MultipleObjectMixin) (query_object : List α) : List α :=
  query_object

/-- `get_paginator`: builds a `Paginator` (with `orphans = 0`). -/
def MultipleObjectMixin.get_paginator (self : MultipleObjectMixin) (query_object : List α)
    (per_page : Nat) (allow_empty_first_page : Bool) : Paginator α :=
  ⟨query_object, per_page, allow_empty_first_page⟩

/-- Line 35 of the source:
`page = self.kwargs.get('page') or self.request.GET.get('page') or 1`. -/
def MultipleObjectMixin.resolved_page (self : MultipleObjectMixin) : PageVal :=
  pyOr (pyOr self.kwargs_page self.request_GET_page) (.vint 1)

/-- `paginate_query_object`: build the paginator, resolve the requested
page identifier, convert it to an int (falling back to `num_pages` for
the literal string `last`, raising `InvalidPage` otherwise), and return
`(paginator, page, page.object_list, page.has_other_pages())` — except
that an empty paginator short-circuits to an empty `Page([], 1)` without
calling `paginator.page` (the "DB2 fix" branch). -/
def MultipleObjectMixin.paginate_query_object (self : MultipleObjectMixin)
    (query_object : List α) (page_size : Nat) :
    Except PyErr (Paginator α × Page α × List α × Bool) :=
  let paginator := self.get_paginator query_object page_size self.get_allow_empty
  let page := self.resolved_page
  let parsed : Except PyErr Int :=
    match pyIntOf page with
    | .ok n => .ok n
    | .error .valueError =>
      if page = .vstr (r"last") then .ok (paginator.num_pages : Int)
      else .error .invalidPage
    | .error e => .error e
  match parsed with
  | .error e => .error e
  | .ok page_number =>
    if paginator.count ≠ 0 then
      match paginator.page page_number with
      | .error e => .error e
      | .ok pg => .ok (paginator, pg, pg.object_list, pg.has_other_pages)
    else
      .ok (paginator, ⟨[], 1, paginator⟩, [], false)

/-- `get_page`: compute the page size, filter the query object, paginate,
and return the third component (the page's object list). -/
def MultipleObjectMixin.get_page (self : MultipleObjectMixin) (queryset : List α) :
    Except PyErr (List α) :=
  let page_size := self.get_paginate_by queryset
  let query_object := self.filter_query_object queryset
  match self.paginate_query_object query_object page_size with
  | .error e => .error e
  | .ok r => .ok r.2.2.1

/-! ### Action-method synthesis (`make_action_method`, `ManagerMeta`) -/

/-- HTTP status constants from `rest_framework.status`. -/
def HTTP_200_OK : Nat := 200

/-- HTTP 201. -/
def HTTP_201_CREATED : Nat := 201

/-- HTTP 202. -/
def HTTP_202_ACCEPTED : Nat := 202

/-- The module-level `STATUS_CODES` dict, as an association list. -/
def STATUS_CODES : List (String × Nat) :=
  [("created", HTTP_201_CREATED), ("updated", HTTP_200_OK), ("accepted", HTTP_202_ACCEPTED)]

/-- Python `STATUS_CODES[k]`: `KeyError` when the key is absent. -/
def statusCodesItem (k : String) : Except PyErr Nat :=
  match STATUS_CODES.lookup k with
  | some c => .ok c
  | none => .error (.keyError k)

/-- The request payload (`request.data`), modelled as string items. -/
def Payload : Type := List (String × String)

/-- A value returned by a manager action method: `None` or a dict. -/
inductive MgrResp where
  | vnone
  | mapping (entries : List (String × String))

deriving instance DecidableEq for MgrResp

/-- Python truthiness of a manager result: `None` and `{}` are falsy. -/
def MgrResp.truthy : MgrResp → Bool
  | .vnone => false
  | .mapping es => !es.isEmpty

/-- Python `resp['status']`-style subscription: `KeyError` for a missing
key, `TypeError` when subscripting `None`. -/
def MgrResp.getItem : MgrResp → String → Except PyErr String
  | .vnone, _ => .error .typeError
  | .mapping es, k =>
    match es.lookup k with
    | some v => .ok v
    | none => .error (.keyError k)

/-- A DRF `Response`, reduced to its body and numeric status code. -/
structure HttpResponse where
  body : MgrResp
  status : Nat

deriving instance DecidableEq for HttpResponse

/-- An instantiated manager: its callable methods by name. Each method
takes `(data, pk, **kwargs)`; extra kwargs are not modelled. -/
structure Manager where
  methods : List (String × (Payload → Option String → MgrResp))

/-- A manager class: its optional `action_methods` declaration and the
methods its instances expose. -/
structure ManagerClass where
  action_methods : Option (List (String × List String))
  methods : List (String × (Payload → Option String → MgrResp))

/-- The viewset instance state that a generated handler reads: its
`manager_class` attribute (`manager_factory` instantiates it). -/
structure ViewsetSelf where
  manager_class : ManagerClass

/-- An incoming request, reduced to its `data` payload. -/
structure Request where
  data : Payload

/-- `ManagerMixin.manager_factory`: instantiates `self.manager_class`. -/
def manager_factory (self : ViewsetSelf) : Manager :=
  ⟨self.manager_class.methods⟩

/-- Python `getattr(mgr, name)`: `AttributeError` when absent. -/
def getattrMgr (mgr : Manager) (nm : String) : Except PyErr (Payload → Option String → MgrResp) :=
  match mgr.methods.lookup nm with
  | some f => .ok f
  | none => .error (.attributeError nm)

/-- The tail of the generated handler `func`: a falsy manager result is
returned with HTTP 200; otherwise the response status is
`STATUS_CODES[resp['status']]` (either lookup can raise `KeyError`). -/
def respond (resp : MgrResp) : Except PyErr HttpResponse :=
  if resp.truthy = false then .ok ⟨resp, HTTP_200_OK⟩
  else
    match resp.getItem (r"status") with
    | .error e => .error e
    | .ok s =>
      match statusCodesItem s with
      | .error e => .error e
      | .ok c => .ok ⟨resp, c⟩

/-- The handler synthesized by `make_action_method`: its `func` (which
instantiates the manager via `manager_factory`, fetches the method named
`name` with `getattr`, calls it on `(request.data, pk)` and builds the
response) together with the `bind_to_methods` attribute set on it. The
`assert hasattr` preamble is vacuous in this embedding (the modelled
request always has `data`, the viewset always has `manager_class` and
`manager_factory`). -/
structure ActionMethod where
  run : ViewsetSelf → Request → Option String → Except PyErr HttpResponse
  bind_to_methods : List String

/-- `make_action_method(name, methods)`. -/
def make_action_method (nm : String) (methods : List String) : ActionMethod where
  run self request pk :=
    let mgr := manager_factory self
    match getattrMgr mgr nm with
    | .error e => .error e
    | .ok mgr_method => respond (mgr_method request.data pk)
  bind_to_methods := methods

/-- A value in a class attribute dictionary: the `manager_class`
attribute, a generated action handler, or anything else. -/
inductive Attr where
  | managerClass (m : ManagerClass)
  | action (a : ActionMethod)
  | plain (s : String)

/-- Python `str.lower()` (ASCII behaviour suffices here). -/
def pyLower (s : String) : String :=
  String.mk (s.data.map Char.toLower)

/-- Python dict assignment `d[k] = v` on an insertion-ordered dict:
replace in place when the key exists, append otherwise. -/
def dictSet (d : List (String × Attr)) (k : String) (v : Attr) : List (String × Attr) :=
  if (d.lookup k).isSome then
    d.map (fun p => if p.1 = k then (k, v) else p)
  else d ++ [(k, v)]

/-- `ManagerMeta.__new__`: when `'manager_class'` is in `attrs` and that
class has an `action_methods` attribute, attach
`make_action_method(mname.lower(), methods)` under the key `mname` for
each declared action; then create the class from the (possibly updated)
`attrs`. The resulting class is modelled by its attribute dictionary;
`bases` is never consulted. -/
def ManagerMeta_new (nm : String) (bases : List String) (attrs : List (String × Attr)) :
    List (String × Attr) :=
  match attrs.lookup (r"manager_class") with
  | some (Attr.managerClass mgr_class) =>
    match mgr_class.action_methods with
    | some ams =>
      ams.foldl (fun acc p => dictSet acc p.1 (Attr.action (make_action_method (pyLower p.1) p.2))) attrs
    | none => attrs
  | some _ => attrs
  | none => attrs

/-! ## Claims about the generated action handlers -/

/-- C2: for every handler generated by `make_action_method`, a manager
method returning a truthy mapping whose `status` is `created`, `updated`
or `accepted` yields a response with status code 201, 200 or 202
respectively, whose body is the full result mapping. -/
theorem make_action_method_known_status
    (nm : String) (methods : List String) (self : ViewsetSelf) (request : Request)
    (pk : Option String) (f : Payload → Option String → MgrResp)
    (es : List (String × String)) (s : String)
    (hattr : (manager_factory self).methods.lookup nm = some f)
    (hresp : f request.data pk = MgrResp.mapping es)
    (htruthy : (MgrResp.mapping es).truthy = true)
    (hs : (MgrResp.mapping es).getItem (r"status") = .ok s) :
    (s = r"created" →
      (make_action_method nm methods).run self request pk = .ok ⟨MgrResp.mapping es, 201⟩)
    ∧ (s = r"updated" →
      (make_action_method nm methods).run self request pk = .ok ⟨MgrResp.mapping es, 200⟩)
    ∧ (s = r"accepted" →
      (make_action_method nm methods).run self request pk = .ok ⟨MgrResp.mapping es, 202⟩) := by
  have hrun : (make_action_method nm methods).run self request pk = respond (f request.data pk) := by
    simp [make_action_method, getattrMgr, hattr]
  rw [hresp] at hrun
  refine ⟨?_, ?_, ?_⟩ <;> intro hseq <;> subst hseq <;>
    (rw [hrun]; unfold respond; rw [htruthy, hs]; rfl)

/-- Witness for C2 at a concrete input: a manager method returning
`{'status': 'created'}` produces a 201 response with that mapping. -/
theorem make_action_method_known_status_witness :
    (make_action_method (r"act") [r"POST"]).run
        ⟨⟨none, [((r"act"), fun _ _ => MgrResp.mapping [((r"status"), r"created")])]⟩⟩
        ⟨[]⟩ none
      = .ok ⟨MgrResp.mapping [((r"status"), r"created")], 201⟩ :=
  (make_action_method_known_status (r"act") [r"POST"]
    ⟨⟨none, [((r"act"), fun _ _ => MgrResp.mapping [((r"status"), r"created")])]⟩⟩
    ⟨[]⟩ none
    (fun _ _ => MgrResp.mapping [((r"status"), r"created")])
    [((r"status"), r"created")] (r"created")
    rfl rfl rfl rfl).1 rfl

/-- C7: a falsy manager result (`None` or an empty mapping) is passed
through as the body of a 200 response; the status-code table is not
consulted. -/
theorem make_action_method_falsy
    (nm : String) (methods : List String) (self : ViewsetSelf) (request : Request)
    (pk : Option String) (f : Payload → Option String → MgrResp)
    (hattr : (manager_factory self).methods.lookup nm = some f)
    (hfalsy : (f request.data pk).truthy = false) :
    (make_action_method nm methods).run self request pk = .ok ⟨f request.data pk, 200⟩ := by
  have hrun : (make_action_method nm methods).run self request pk = respond (f request.data pk) := by
    simp [make_action_method, getattrMgr, hattr]
  rw [hrun, respond, hfalsy]
  rfl

/-- Witness for C7 at a concrete input: a manager method returning
`None` produces a 200 response with body `None`. -/
theorem make_action_method_falsy_witness :
    (make_action_method (r"act") [r"POST"]).run
        ⟨⟨none, [((r"act"), fun _ _ => MgrResp.vnone)]⟩⟩ ⟨[]⟩ none
      = .ok ⟨MgrResp.vnone, 200⟩ :=
  make_action_method_falsy (r"act") [r"POST"]
    ⟨⟨none, [((r"act"), fun _ _ => MgrResp.vnone)]⟩⟩ ⟨[]⟩ none
    (fun _ _ => MgrResp.vnone) rfl rfl

/-- C8: a truthy mapping whose `status` lies outside the fixed
vocabulary of `STATUS_CODES` makes the handler raise an uncaught
`KeyError`; no response is produced. -/
theorem make_action_method_unknown_status
    (nm : String) (methods : List String) (self : ViewsetSelf) (request : Request)
    (pk : Option String) (f : Payload → Option String → MgrResp)
    (es : List (String × String)) (s : String)
    (hattr : (manager_factory self).methods.lookup nm = some f)
    (hresp : f request.data pk = MgrResp.mapping es)
    (htruthy : (MgrResp.mapping es).truthy = true)
    (hs : (MgrResp.mapping es).getItem (r"status") = .ok s)
    (hout : STATUS_CODES.lookup s = none) :
    (make_action_method nm methods).run self request pk = .error (.keyError s) := by
  have hrun : (make_action_method nm methods).run self request pk = respond (f request.data pk) := by
    simp [make_action_method, getattrMgr, hattr]
  rw [hresp] at hrun
  simp [hrun, respond, htruthy, hs, statusCodesItem, hout]

/-- Witness for C8 at a concrete input: `{'status': 'bogus'}` raises
`KeyError('bogus')`. -/
theorem make_action_method_unknown_status_witness :
    (make_action_method (r"act") [r"POST"]).run
        ⟨⟨none, [((r"act"), fun _ _ => MgrResp.mapping [((r"status"), r"bogus")])]⟩⟩
        ⟨[]⟩ none
      = .error (.keyError (r"bogus")) :=
  make_action_method_unknown_status (r"act") [r"POST"]
    ⟨⟨none, [((r"act"), fun _ _ => MgrResp.mapping [((r"status"), r"bogus")])]⟩⟩
    ⟨[]⟩ none
    (fun _ _ => MgrResp.mapping [((r"status"), r"bogus")])
    [((r"status"), r"bogus")] (r"bogus")
    rfl rfl rfl rfl rfl

/-! ## Claims about the metaclass -/

/-- C1 counterexample: for a manager class declaring
`action_methods = {'DoThing': ['POST']}`, the class built by
`ManagerMeta.__new__` has no attribute named `dothing` — the handler is
attached under the original key `DoThing`, not the lower-cased name. -/
theorem managerMeta_no_lowercase_attr :
    (ManagerMeta_new (r"MyViewSet") []
        [((r"manager_class"),
          Attr.managerClass ⟨some [((r"DoThing"), [r"POST"])], []⟩)]).lookup (r"dothing")
      = none := rfl

/-- C1 (amended): for a manager class declaring
`action_methods = {'DoThing': ['POST']}`, the class built by
`ManagerMeta.__new__` gains the attribute `DoThing` (the original key),
holding `make_action_method('dothing', ['POST'])`: its `bind_to_methods`
is `['POST']` and, when invoked, it instantiates a manager via
`manager_factory` and calls the manager method found under the
lower-cased name `dothing` on the request payload and optional pk. -/
theorem managerMeta_attaches_DoThing (nm : String) (bases : List String) (mc : ManagerClass)
    (hact : mc.action_methods = some [((r"DoThing"), [r"POST"])]) :
    (ManagerMeta_new nm bases [((r"manager_class"), Attr.managerClass mc)]).lookup (r"DoThing")
      = some (Attr.action (make_action_method (r"dothing") [r"POST"]))
    ∧ (make_action_method (r"dothing") [r"POST"]).bind_to_methods = [r"POST"]
    ∧ ∀ (self : ViewsetSelf) (request : Request) (pk : Option String)
        (f : Payload → Option String → MgrResp),
        (manager_factory self).methods.lookup (r"dothing") = some f →
        (make_action_method (r"dothing") [r"POST"]).run self request pk
          = respond (f request.data pk) := by
  obtain ⟨am, ms⟩ := mc
  simp only [ManagerClass.action_methods] at hact
  subst hact
  refine ⟨rfl, rfl, ?_⟩
  intro self request pk f hf
  simp [make_action_method, getattrMgr, hf]

/-- Witness for C1 at a concrete input: the attribute under the key
`DoThing` is the handler for the lower-cased manager method `dothing`,
bound to POST. -/
theorem managerMeta_attaches_DoThing_witness :
    (ManagerMeta_new (r"MyViewSet") []
        [((r"manager_class"),
          Attr.managerClass ⟨some [((r"DoThing"), [r"POST"])],
            [((r"dothing"), fun _ _ => MgrResp.vnone)]⟩)]).lookup (r"DoThing")
      = some (Attr.action (make_action_method (r"dothing") [r"POST"])) :=
  (managerMeta_attaches_DoThing (r"MyViewSet") []
    ⟨some [((r"DoThing"), [r"POST"])], [((r"dothing"), fun _ _ => MgrResp.vnone)]⟩ rfl).1

/-- C9: `ManagerMeta.__new__` synthesizes handlers only when
`manager_class` is a key of the class's own attribute dictionary;
whatever the bases are (so a subclass merely inheriting `manager_class`
gains nothing), an attribute dictionary without that key is passed
through to class creation unchanged. -/
theorem managerMeta_passthrough (nm : String) (bases : List String)
    (attrs : List (String × Attr))
    (h : attrs.lookup (r"manager_class") = none) :
    ManagerMeta_new nm bases attrs = attrs := by
  unfold ManagerMeta_new
  rw [h]

/-- Witness for C9 at a concrete input: a subclass whose own attrs lack
`manager_class` (even with a base that has one) is left unchanged. -/
theorem managerMeta_passthrough_witness :
    ManagerMeta_new (r"Child") [r"BaseViewSetWithManager"]
        [((r"queryset"), Attr.plain (r"q"))]
      = [((r"queryset"), Attr.plain (r"q"))] :=
  managerMeta_passthrough (r"Child") [r"BaseViewSetWithManager"]
    [((r"queryset"), Attr.plain (r"q"))] rfl

/-! ## Claims about pagination -/

/-- Helper: `pyOr a b` cannot be `None` when `b` is not. -/
theorem pyOr_ne_vnone (a b : PageVal) (hb : b ≠ PageVal.vnone) : pyOr a b ≠ PageVal.vnone := by
  unfold pyOr
  split
  · next h =>
    intro hEq
    rw [hEq] at h
    simp [PageVal.truthy] at h
  · exact hb

/-- Helper: the resolved page identifier is never `None` — the or-chain
ends in the literal `1`. -/
theorem resolved_page_ne_vnone (self : MultipleObjectMixin) :
    self.resolved_page ≠ PageVal.vnone :=
  pyOr_ne_vnone _ _ (by decide)

/-- C10: the or-chain on line 35 replaces any falsy page value from the
URL kwargs and the query string (absent key, `None`, empty string,
integer `0`) by the default `1`, before `int()` is applied. -/
theorem resolved_page_default (self : MultipleObjectMixin)
    (hk : self.kwargs_page.truthy = false)
    (hg : self.request_GET_page.truthy = false) :
    self.resolved_page = .vint 1 ∧ pyIntOf self.resolved_page = .ok 1 := by
  have h : self.resolved_page = .vint 1 := by
    simp [MultipleObjectMixin.resolved_page, pyOr, hk, hg]
  exact ⟨h, by rw [h]; rfl⟩

/-- Witness for C10 at a concrete input: an empty-string kwargs value
and an integer-`0` query-string value both fall through to `1`. -/
theorem resolved_page_default_witness :
    MultipleObjectMixin.resolved_page ⟨true, 10, .vstr (r""), .vint 0⟩ = .vint 1
    ∧ pyIntOf (MultipleObjectMixin.resolved_page ⟨true, 10, .vstr (r""), .vint 0⟩) = .ok 1 :=
  resolved_page_default ⟨true, 10, .vstr (r""), .vint 0⟩ rfl rfl

/-- C6: a resolved page identifier that is neither convertible to an
integer nor the string `last` makes `paginate_query_object` raise
`InvalidPage`, for every query object and page size. -/
theorem paginate_query_object_invalid_page (self : MultipleObjectMixin)
    (query_object : List α) (page_size : Nat)
    (hnoint : (pyIntOf self.resolved_page).isOk = false)
    (hnotlast : self.resolved_page ≠ .vstr (r"last")) :
    self.paginate_query_object query_object page_size = .error .invalidPage := by
  have hvn := resolved_page_ne_vnone self
  cases hpe : self.resolved_page with
  | vnone => exact absurd hpe hvn
  | vint n => rw [hpe] at hnoint; simp [pyIntOf, Except.isOk, Except.toBool] at hnoint
  | vstr s =>
    rw [hpe] at hnoint hnotlast
    cases hps : parseIntPy s with
    | some n => simp [pyIntOf, hps, Except.isOk, Except.toBool] at hnoint
    | none =>
      simp only [MultipleObjectMixin.paginate_query_object, hpe, pyIntOf, hps]
      simp [hnotlast]

/-- Witness for C6 at a concrete input: the page identifier `abc` on a
non-empty query object raises `InvalidPage`. -/
theorem paginate_query_object_invalid_page_witness :
    MultipleObjectMixin.paginate_query_object ⟨true, 10, .vstr (r"abc"), .vnone⟩
        ([1, 2, 3] : List Nat) 10
      = .error .invalidPage :=
  paginate_query_object_invalid_page ⟨true, 10, .vstr (r"abc"), .vnone⟩ [1, 2, 3] 10
    rfl (by decide)

/-- C3 counterexample: on an empty query object the adapter does not
return a page for every requested identifier — the identifier `bogus`
(neither an int nor `last`) raises `InvalidPage` before the empty-count
short-circuit is reached. -/
theorem paginate_empty_bogus_counterexample :
    MultipleObjectMixin.paginate_query_object ⟨true, 10, .vstr (r"bogus"), .vnone⟩
        ([] : List Nat) 10
      = .error .invalidPage := rfl

/-- C3 (amended): for an empty query object, a positive page size, and
any requested page identifier that is convertible to an int or equal to
`last`, `paginate_query_object` short-circuits to an empty page
numbered `1` with `has_other_pages` reported false, never calling
`paginator.page`. The positive-page-size hypothesis keeps the `last`
branch inside the faithful region of `Paginator.num_pages`: at
`per_page = 0` Django raises ZeroDivisionError there before the
empty-count short-circuit is reached. -/
theorem paginate_empty_short_circuit (self : MultipleObjectMixin) (page_size : Nat)
    (hps : 0 < page_size)
    (hp : (∃ n : Int, pyIntOf self.resolved_page = .ok n)
          ∨ self.resolved_page = .vstr (r"last")) :
    self.paginate_query_object ([] : List α) page_size
      = .ok (⟨[], page_size, self.allow_empty⟩,
             ⟨[], 1, ⟨[], page_size, self.allow_empty⟩⟩, [], false) := by
  rcases hp with ⟨n, hn⟩ | hlast
  · simp [MultipleObjectMixin.paginate_query_object, MultipleObjectMixin.get_paginator,
      MultipleObjectMixin.get_allow_empty, hn, Paginator.count]
  · have hpl : pyIntOf (PageVal.vstr (r"last")) = .error .valueError := rfl
    simp [MultipleObjectMixin.paginate_query_object, MultipleObjectMixin.get_paginator,
      MultipleObjectMixin.get_allow_empty, hlast, hpl, Paginator.count]

/-- Witness for C3 at a concrete input: the identifier `last` on an
empty query object yields the empty page 1 with no other pages. -/
theorem paginate_empty_short_circuit_witness :
    MultipleObjectMixin.paginate_query_object ⟨true, 10, .vnone, .vstr (r"last")⟩
        ([] : List Nat) 10
      = .ok (⟨[], 10, true⟩, ⟨[], 1, ⟨[], 10, true⟩⟩, [], false) :=
  paginate_empty_short_circuit ⟨true, 10, .vnone, .vstr (r"last")⟩ 10 (by decide)
    (Or.inr rfl)

/-- C4 (code bug): with `allow_empty = False` and an empty query object,
`paginate_query_object` still returns the empty page instead of
signalling a not-found condition — the `count == 0` short-circuit
bypasses `paginator.page`, which (second conjunct) would have raised
`EmptyPage` exactly as `get_allow_empty`'s docstring ("False to 404")
promises. -/
theorem paginate_empty_disallowed_no_404 :
    MultipleObjectMixin.paginate_query_object ⟨false, 10, .vnone, .vnone⟩
        ([] : List Nat) 10
      = .ok (⟨[], 10, false⟩, ⟨[], 1, ⟨[], 10, false⟩⟩, [], false)
    ∧ Paginator.page (⟨[], 10, false⟩ : Paginator Nat) 1 = .error .emptyPage :=
  ⟨rfl, rfl⟩

/-- Helper: a page number in `[1, num_pages]` passes validation. -/
theorem validate_number_in_range (p : Paginator α) (n : Int)
    (h1 : 1 ≤ n) (h2 : n ≤ (p.num_pages : Int)) :
    p.validate_number n = .ok n.toNat := by
  unfold Paginator.validate_number
  rw [if_neg (by omega), if_neg (by omega)]

/-- Helper: a non-empty paginator with a positive page size has at least
one page. -/
theorem num_pages_pos (p : Paginator α) (hc : p.count ≠ 0) (hpp : 0 < p.per_page) :
    1 ≤ p.num_pages := by
  unfold Paginator.num_pages
  rw [if_neg (by simp [hc])]
  rw [Nat.one_le_div_iff hpp]
  have := Nat.le_max_left 1 p.count
  omega

/-- Helper: `Paginator.page` succeeds on every in-range page number. -/
theorem page_in_range_ok (p : Paginator α) (n : Int)
    (h1 : 1 ≤ n) (h2 : n ≤ (p.num_pages : Int)) :
    ∃ pg : Page α, p.page n = .ok pg := by
  unfold Paginator.page
  rw [validate_number_in_range p n h1 h2]
  exact ⟨_, rfl⟩

/-- C5: on a non-empty query object with a positive configured page
size, `get_page` returns exactly the object list of the paginator's
page `n` for an in-range integer identifier `n`, and the object list of
the final page (number `num_pages`) for the identifier `last`. -/
theorem get_page_returns_paginator_page (self : MultipleObjectMixin) (queryset : List α)
    (hne : queryset ≠ [])
    (hpp : 0 < self.paginate_by) :
    (∀ n : Int, pyIntOf self.resolved_page = .ok n →
        1 ≤ n →
        n ≤ ((⟨queryset, self.paginate_by, self.allow_empty⟩ : Paginator α).num_pages : Int) →
        ∃ pg : Page α,
          Paginator.page ⟨queryset, self.paginate_by, self.allow_empty⟩ n = .ok pg
          ∧ self.get_page queryset = .ok pg.object_list)
    ∧ (self.resolved_page = .vstr (r"last") →
        ∃ pg : Page α,
          Paginator.page ⟨queryset, self.paginate_by, self.allow_empty⟩
              ((⟨queryset, self.paginate_by, self.allow_empty⟩ : Paginator α).num_pages : Int)
            = .ok pg
          ∧ self.get_page queryset = .ok pg.object_list) := by
  have hcne : (⟨queryset, self.paginate_by, self.allow_empty⟩ : Paginator α).count ≠ 0 := by
    simp [Paginator.count, List.length_eq_zero, hne]
  constructor
  · intro n hn h1 h2
    obtain ⟨pg, hpg⟩ := page_in_range_ok _ n h1 h2
    refine ⟨pg, hpg, ?_⟩
    simp [MultipleObjectMixin.get_page, MultipleObjectMixin.get_paginate_by,
      MultipleObjectMixin.filter_query_object, MultipleObjectMixin.paginate_query_object,
      MultipleObjectMixin.get_paginator, MultipleObjectMixin.get_allow_empty,
      hn, hcne, hpg]
  · intro hlast
    have hnp := num_pages_pos (⟨queryset, self.paginate_by, self.allow_empty⟩ : Paginator α)
      hcne hpp
    obtain ⟨pg, hpg⟩ := page_in_range_ok _ _ (by exact_mod_cast hnp) (le_refl _)
    refine ⟨pg, hpg, ?_⟩
    have hpl : pyIntOf (PageVal.vstr (r"last")) = .error .valueError := rfl
    simp [MultipleObjectMixin.get_page, MultipleObjectMixin.get_paginate_by,
      MultipleObjectMixin.filter_query_object, MultipleObjectMixin.paginate_query_object,
      MultipleObjectMixin.get_paginator, MultipleObjectMixin.get_allow_empty,
      hlast, hpl, hcne, hpg]

/-- Witness for C5 at a concrete input: query `[10, 20, 30]`, page size
2, identifier `2`: the adapter returns page 2 of the paginator. -/
theorem get_page_returns_paginator_page_witness :
    ∃ pg : Page Nat,
      Paginator.page (⟨[10, 20, 30], 2, true⟩ : Paginator Nat) 2 = .ok pg
      ∧ MultipleObjectMixin.get_page ⟨true, 2, .vstr (r"2"), .vnone⟩ [10, 20, 30]
          = .ok pg.object_list :=
  (get_page_returns_paginator_page ⟨true, 2, .vstr (r"2"), .vnone⟩ [10, 20, 30]
    (by decide) (by decide)).1 2 rfl (by decide) (by decide)
